import Mathlib

/-!
Shallow embedding of the ride-sharing lifecycle code:
ride model and status choices, AcceptRideView (locked accept),
AvailableRidesView (open-ride listing), CompleteRideView, CancelRideView,
MarkAsPaidView, and the RideFeedback model and serializer.
Each Django view's post handler becomes a pure function from the fetched
ride (an Option, none standing for DoesNotExist / 404) and the caller to a
result tag together with the updated ride.  The exclusive row lock of the
accept path serializes concurrent accept calls on one ride id, so the
observable behaviour of any set of accept calls is that of some sequential
order of them; sequences of calls are modelled by folds.
-/

namespace RideShare

/-- Ride.STATUS_CHOICES across the model variants: REQUESTED, ACCEPTED,
ONGOING, COMPLETED, CANCELLED. -/
inductive RideStatus
  | requested
  | accepted
  | ongoing
  | completed
  | cancelled
deriving DecidableEq, Repr

/-- Ride.PAYMENT_STATUS_CHOICES: UNPAID, PAID. -/
inductive PaymentStatus
  | unpaid
  | paid
deriving DecidableEq, Repr

/-- An authenticated principal: user id plus the role flag the
CompleteRideView consults (request.user.is_driver). -/
structure User where
  id : Nat
  is_driver : Bool
deriving DecidableEq, Repr

/-- The Ride row: rider and optional driver are kept as user ids, statuses
as the enums above, requested_at as a numeric timestamp. Address and
coordinate columns play no role in any claim and are omitted. -/
structure Ride where
  rider : Nat
  driver : Option Nat
  status : RideStatus
  payment_status : PaymentStatus
  payment_method : Option String
  requested_at : Nat
deriving DecidableEq, Repr

/-- Distinct response branches of the views.  notFound is HTTP 404;
notDriver and notAuthorized are the two 403 branches; the remaining error
tags are the distinct 400 responses. -/
inductive RideResult
  | ok
  | notFound
  | notDriver
  | notAuthorized
  | invalidState
  | rideUnavailable
  | alreadyPaid
  | invalidMethod
  | invalidRating
  | duplicateFeedback
deriving DecidableEq, Repr

/-- RideRequestView.perform_create: a fresh ride row with the model
defaults status=REQUESTED, driver null, payment UNPAID, no method. -/
def newRide (riderId : Nat) (t : Nat) : Ride :=
  { rider := riderId
    driver := none
    status := RideStatus.requested
    payment_status := PaymentStatus.unpaid
    payment_method := none
    requested_at := t }

/-- AcceptRideView.post, body of the locked transaction: if
ride.status != REQUESTED or ride.driver is not None, answer that the ride
is no longer available and leave the row untouched; otherwise assign the
calling driver and set status ONGOING. -/
def acceptRide (r : Ride) (driverId : Nat) : RideResult × Ride :=
  if r.status ≠ RideStatus.requested ∨ r.driver ≠ none then
    (RideResult.rideUnavailable, r)
  else
    (RideResult.ok, { r with driver := some driverId, status := RideStatus.ongoing })

/-- AcceptRideView.post including the Ride.DoesNotExist branch. -/
def acceptRideView (oride : Option Ride) (driverId : Nat) : RideResult × Option Ride :=
  match oride with
  | none => (RideResult.notFound, none)
  | some r => ((acceptRide r driverId).1, some (acceptRide r driverId).2)

/-- CompleteRideView.post after the ride lookup: first the is_driver role
check, then the assigned-driver check, then the ONGOING status check, and
only then the mutation to COMPLETED. -/
def completeRide (r : Ride) (caller : User) : RideResult × Ride :=
  if caller.is_driver = false then
    (RideResult.notDriver, r)
  else if r.driver ≠ some caller.id then
    (RideResult.notAuthorized, r)
  else if r.status ≠ RideStatus.ongoing then
    (RideResult.invalidState, r)
  else
    (RideResult.ok, { r with status := RideStatus.completed })

/-- CompleteRideView.post including the Ride.DoesNotExist branch. -/
def completeRideView (oride : Option Ride) (caller : User) : RideResult × Option Ride :=
  match oride with
  | none => (RideResult.notFound, none)
  | some r => ((completeRide r caller).1, some (completeRide r caller).2)

/-- CancelRideView.post after the ride lookup: the requesting-rider check,
then the REQUESTED status check, then the mutation to CANCELLED. -/
def cancelRide (r : Ride) (caller : User) : RideResult × Ride :=
  if r.rider ≠ caller.id then
    (RideResult.notAuthorized, r)
  else if r.status ≠ RideStatus.requested then
    (RideResult.invalidState, r)
  else
    (RideResult.ok, { r with status := RideStatus.cancelled })

/-- CancelRideView.post including the Ride.DoesNotExist branch. -/
def cancelRideView (oride : Option Ride) (caller : User) : RideResult × Option Ride :=
  match oride with
  | none => (RideResult.notFound, none)
  | some r => ((cancelRide r caller).1, some (cancelRide r caller).2)

/-- Ride.PAYMENT_METHOD_CHOICES, the ChoiceField domain of
RidePaymentSerializer.payment_method. -/
def validPaymentMethods : List String := ["CASH", "CARD", "WALLET"]

/-- MarkAsPaidView.post after get_object_or_404: the rider-or-driver
authorization check, then the COMPLETED status check, then the
already-PAID check, then serializer validation of the method, and only
then the mutation setting payment_status=PAID with the method. -/
def markPaid (r : Ride) (caller : User) (method : String) : RideResult × Ride :=
  if ¬ r.rider = caller.id ∧ ¬ r.driver = some caller.id then
    (RideResult.notAuthorized, r)
  else if r.status ≠ RideStatus.completed then
    (RideResult.invalidState, r)
  else if r.payment_status = PaymentStatus.paid then
    (RideResult.alreadyPaid, r)
  else if method ∈ validPaymentMethods then
    (RideResult.ok,
      { r with payment_status := PaymentStatus.paid, payment_method := some method })
  else
    (RideResult.invalidMethod, r)

/-- MarkAsPaidView.post including the get_object_or_404 branch. -/
def markPaidView (oride : Option Ride) (caller : User) (method : String) :
    RideResult × Option Ride :=
  match oride with
  | none => (RideResult.notFound, none)
  | some r => ((markPaid r caller method).1, some (markPaid r caller method).2)

/-- A RideFeedback row: ride id, submitting user id, rating, optional
comment, and the derived is_driver_feedback flag. -/
structure Feedback where
  ride_id : Nat
  submitted_by : Nat
  rating : Int
  comment : Option String
  is_driver_feedback : Bool
deriving DecidableEq, Repr

/-- RideFeedbackView.create with RideFeedbackSerializer: the ride lookup
(404 first), then DRF field validation of the rating bounds coming from
MinValueValidator(1)/MaxValueValidator(5), then the serializer's validate
rules in order — COMPLETED status, rider-or-driver authorization,
duplicate (ride, submitted_by) — then the insert with the derived
is_driver_feedback flag.  The feedback table is the list fbs. -/
def submitFeedback : Option Ride → Nat → Nat → Int → Option String → List Feedback →
    RideResult × List Feedback
  | none, _, _, _, _, fbs => (RideResult.notFound, fbs)
  | some r, rideId, caller, rating, comment, fbs =>
    if rating < 1 ∨ 5 < rating then
      (RideResult.invalidRating, fbs)
    else if r.status ≠ RideStatus.completed then
      (RideResult.invalidState, fbs)
    else if ¬ r.rider = caller ∧ ¬ r.driver = some caller then
      (RideResult.notAuthorized, fbs)
    else if fbs.any (fun fb => fb.ride_id == rideId && fb.submitted_by == caller) then
      (RideResult.duplicateFeedback, fbs)
    else
      (RideResult.ok,
        { ride_id := rideId
          submitted_by := caller
          rating := rating
          comment := comment
          is_driver_feedback := decide (r.driver = some caller) } :: fbs)

/-- The queryset order of AvailableRidesView: order_by('-requested_at'),
descending request time, so a listed ride is at least as recent as every
ride after it. -/
def newestFirst (a b : Ride) : Prop := b.requested_at ≤ a.requested_at

instance : DecidableRel newestFirst := fun a b => Nat.decLe b.requested_at a.requested_at

instance : IsTotal Ride newestFirst :=
  ⟨fun a b => Nat.le_total b.requested_at a.requested_at⟩

instance : IsTrans Ride newestFirst :=
  ⟨fun _ _ _ h1 h2 => Nat.le_trans h2 h1⟩

/-- AvailableRidesView.queryset: filter(status='REQUESTED',
driver__isnull=True).order_by('-requested_at'); the stable sort models the
database ordering on the filtered rows. -/
def availableRides (rides : List Ride) : List Ride :=
  List.insertionSort newestFirst
    (rides.filter (fun r => decide (r.status = RideStatus.requested ∧ r.driver = none)))

/-- Ascending request-time order, the order the spec asserts for the
open-ride listing; kept for comparison with the order the code uses. -/
def oldestFirst (a b : Ride) : Prop := a.requested_at ≤ b.requested_at

instance : DecidableRel oldestFirst := fun a b => Nat.decLe a.requested_at b.requested_at

/-- Position of a status along the lifecycle order REQUESTED → ONGOING →
COMPLETED, with REQUESTED → CANCELLED; both terminal statuses sit at the
top, ACCEPTED between REQUESTED and ONGOING. -/
def statusRank : RideStatus → Nat
  | RideStatus.requested => 0
  | RideStatus.accepted => 1
  | RideStatus.ongoing => 2
  | RideStatus.completed => 3
  | RideStatus.cancelled => 3

/-- One state-changing call on a single ride row. -/
inductive RideOp
  | acceptOp (driverId : Nat)
  | completeOp (caller : User)
  | cancelOp (caller : User)
  | payOp (caller : User) (method : String)
deriving DecidableEq, Repr

/-- The ride state an operation leaves behind (errors leave it as is). -/
def applyOp (r : Ride) : RideOp → Ride
  | RideOp.acceptOp d => (acceptRide r d).2
  | RideOp.completeOp u => (completeRide r u).2
  | RideOp.cancelOp u => (cancelRide r u).2
  | RideOp.payOp u m => (markPaid r u m).2

/-- Run a sequence of state-changing calls on one ride row. -/
def runOps (r : Ride) (ops : List RideOp) : Ride := ops.foldl applyOp r

/-- The ride state after a sequence of accept calls, each call seeing the
state the previous one committed (the exclusive lock serializes them). -/
def acceptAll (r : Ride) (ds : List Nat) : Ride :=
  ds.foldl (fun cur d => (acceptRide cur d).2) r

/-- The drivers whose accept call returns the success response, in a
serialized sequence of accept calls starting from ride state r. -/
def acceptWinners (r : Ride) : List Nat → List Nat
  | [] => []
  | d :: ds =>
    if (acceptRide r d).1 = RideResult.ok then
      d :: acceptWinners (acceptRide r d).2 ds
    else
      acceptWinners (acceptRide r d).2 ds

/-- The availability condition the accept path re-checks under the lock. -/
def rideOpen (r : Ride) : Prop := r.status = RideStatus.requested ∧ r.driver = none

instance (r : Ride) : Decidable (rideOpen r) := by
  unfold rideOpen; infer_instance

/-- No two feedback rows share the (ride, submitted_by) key: the
unique_together constraint of RideFeedback.Meta. -/
def feedbackKeyUnique (fbs : List Feedback) : Prop :=
  List.Pairwise (fun a b => ¬ (a.ride_id = b.ride_id ∧ a.submitted_by = b.submitted_by)) fbs

/-- The driver-assignment invariant: the driver reference is null exactly
on a still-REQUESTED ride or one cancelled before assignment (cancel only
fires from REQUESTED, so every CANCELLED ride was unassigned). -/
def driverInv (r : Ride) : Prop :=
  r.driver = none ↔
    r.status = RideStatus.requested ∨ r.status = RideStatus.cancelled

/-- A COMPLETED, still UNPAID ride of rider 1 assigned to driver 2: a
concrete evaluation point for the payment and terminal-status claims. -/
def doneRide : Ride :=
  { rider := 1
    driver := some 2
    status := RideStatus.completed
    payment_status := PaymentStatus.unpaid
    payment_method := none
    requested_at := 0 }

/-- doneRide after a successful CARD payment. -/
def paidRide : Ride :=
  { doneRide with payment_status := PaymentStatus.paid, payment_method := some "CARD" }

/-- A ride cancelled while still unassigned. -/
def cancelledRide : Ride :=
  { newRide 1 0 with status := RideStatus.cancelled }

lemma acceptRide_of_not_open {r : Ride} (d : Nat) (h : ¬ rideOpen r) :
    acceptRide r d = (RideResult.rideUnavailable, r) := by
  have hc : r.status ≠ RideStatus.requested ∨ r.driver ≠ none := by
    by_cases hs : r.status = RideStatus.requested
    · exact Or.inr (fun hd => h ⟨hs, hd⟩)
    · exact Or.inl hs
  unfold acceptRide
  rw [if_pos hc]

lemma acceptRide_of_open {r : Ride} (d : Nat) (h : rideOpen r) :
    acceptRide r d =
      (RideResult.ok, { r with driver := some d, status := RideStatus.ongoing }) := by
  unfold acceptRide
  rw [if_neg]
  push_neg
  exact h

lemma accept_seq_not_open {r : Ride} (h : ¬ rideOpen r) (ds : List Nat) :
    acceptWinners r ds = [] ∧ acceptAll r ds = r := by
  induction ds with
  | nil => exact ⟨rfl, rfl⟩
  | cons d ds ih =>
    have he := acceptRide_of_not_open (r := r) d h
    refine ⟨?_, ?_⟩
    · show acceptWinners r (d :: ds) = []
      unfold acceptWinners
      rw [he]
      simpa using ih.1
    · show acceptAll r (d :: ds) = r
      unfold acceptAll
      rw [List.foldl_cons, he]
      exact ih.2

lemma accept_seq_open {r : Ride} (h : rideOpen r) (d : Nat) (ds : List Nat) :
    acceptWinners r (d :: ds) = [d] ∧ (acceptAll r (d :: ds)).driver = some d := by
  have he := acceptRide_of_open (r := r) d h
  have hno : ¬ rideOpen { r with driver := some d, status := RideStatus.ongoing } := by
    intro hc
    simpa [rideOpen] using hc.1
  have hrest := accept_seq_not_open hno ds
  refine ⟨?_, ?_⟩
  · unfold acceptWinners
    rw [he]
    simpa using hrest.1
  · unfold acceptAll
    rw [List.foldl_cons, he]
    show (acceptAll _ ds).driver = some d
    rw [hrest.2]

/-- C1: in any serialized sequence of accept calls on one ride, at most one
call succeeds, the persisted driver equals any winner, and on a ride that
is still REQUESTED with no driver the first call is the single winner. -/
theorem claim_C1_accept_single_winner (r : Ride) (ds : List Nat) :
    (acceptWinners r ds).length ≤ 1 ∧
    (∀ d, d ∈ acceptWinners r ds → (acceptAll r ds).driver = some d) ∧
    (rideOpen r → ∀ d rest, acceptWinners r (d :: rest) = [d]) := by
  by_cases h : rideOpen r
  · refine ⟨?_, ?_, fun _ d rest => (accept_seq_open h d rest).1⟩
    · cases ds with
      | nil => simp [acceptWinners]
      | cons d rest => rw [(accept_seq_open h d rest).1]; simp
    · intro d hd
      cases ds with
      | nil => simp [acceptWinners] at hd
      | cons d0 rest =>
        rw [(accept_seq_open h d0 rest).1] at hd
        have : d = d0 := by simpa using hd
        rw [this]
        exact (accept_seq_open h d0 rest).2
  · have hs := accept_seq_not_open h ds
    refine ⟨?_, ?_, fun hopen => absurd hopen h⟩
    · rw [hs.1]; simp
    · intro d hd
      rw [hs.1] at hd
      simp at hd

/-- Witness for C1 at a fresh ride and two competing accept calls. -/
theorem claim_C1_witness :
    (acceptWinners (newRide 1 0) [4, 5]).length ≤ 1 ∧
    acceptWinners (newRide 1 0) [4, 5] = [4] :=
  ⟨(claim_C1_accept_single_winner (newRide 1 0) [4, 5]).1,
   (claim_C1_accept_single_winner (newRide 1 0) [4, 5]).2.2 (by decide) 4 [5]⟩

/-- C2: for complete, cancel and markPaid, a nonexistent ride answers
NotFound for every caller, and a caller who is not the required actor
answers an authorization failure (leaving the ride unchanged) for every
ride status, so the checks fire in the order not-found, unauthorized,
wrong-state. -/
theorem claim_C2_error_precedence (r : Ride) (caller : User) (method : String) :
    completeRideView none caller = (RideResult.notFound, none) ∧
    cancelRideView none caller = (RideResult.notFound, none) ∧
    markPaidView none caller method = (RideResult.notFound, none) ∧
    (caller.is_driver = false ∨ r.driver ≠ some caller.id →
      ((completeRide r caller).1 = RideResult.notDriver ∨
        (completeRide r caller).1 = RideResult.notAuthorized) ∧
      (completeRide r caller).2 = r) ∧
    (r.rider ≠ caller.id → cancelRide r caller = (RideResult.notAuthorized, r)) ∧
    (¬ r.rider = caller.id ∧ ¬ r.driver = some caller.id →
      markPaid r caller method = (RideResult.notAuthorized, r)) := by
  refine ⟨rfl, rfl, rfl, ?_, ?_, ?_⟩
  · intro h
    unfold completeRide
    cases hb : caller.is_driver with
    | false => simp
    | true =>
      have hd : r.driver ≠ some caller.id := by
        cases h with
        | inl h => rw [hb] at h; exact absurd h (by simp)
        | inr h => exact h
      simp [hd]
  · intro h
    unfold cancelRide
    rw [if_pos h]
  · intro h
    unfold markPaid
    rw [if_pos h]

/-- Witness for C2: an unrelated non-driver caller on a COMPLETED ride is
told it is unauthorized, not anything about the state. -/
theorem claim_C2_witness :
    (completeRide { rider := 1, driver := some 2, status := RideStatus.completed,
                    payment_status := PaymentStatus.unpaid, payment_method := none,
                    requested_at := 0 } { id := 3, is_driver := false }).1 =
        RideResult.notDriver ∨
    (completeRide { rider := 1, driver := some 2, status := RideStatus.completed,
                    payment_status := PaymentStatus.unpaid, payment_method := none,
                    requested_at := 0 } { id := 3, is_driver := false }).1 =
        RideResult.notAuthorized :=
  ((claim_C2_error_precedence
      { rider := 1, driver := some 2, status := RideStatus.completed,
        payment_status := PaymentStatus.unpaid, payment_method := none, requested_at := 0 }
      { id := 3, is_driver := false } "CASH").2.2.2.1 (by decide)).1

/-- C9: completing a ride whose driver is still null fails on one of the
two authorization branches for every caller, never on the state check, and
leaves the ride unchanged. -/
theorem claim_C9_no_driver_complete_unauthorized (r : Ride) (caller : User)
    (h : r.driver = none) :
    ((completeRide r caller).1 = RideResult.notDriver ∨
      (completeRide r caller).1 = RideResult.notAuthorized) ∧
    (completeRide r caller).1 ≠ RideResult.invalidState ∧
    (completeRide r caller).2 = r := by
  unfold completeRide
  cases hb : caller.is_driver with
  | false => simp
  | true =>
    have hd : r.driver ≠ some caller.id := by rw [h]; simp
    simp [hd]

/-- Witness for C9: a driver caller completing a fresh driverless ride. -/
theorem claim_C9_witness :
    ((completeRide (newRide 1 0) { id := 7, is_driver := true }).1 = RideResult.notDriver ∨
      (completeRide (newRide 1 0) { id := 7, is_driver := true }).1 =
        RideResult.notAuthorized) ∧
    (completeRide (newRide 1 0) { id := 7, is_driver := true }).1 ≠
      RideResult.invalidState ∧
    (completeRide (newRide 1 0) { id := 7, is_driver := true }).2 = newRide 1 0 :=
  claim_C9_no_driver_complete_unauthorized (newRide 1 0) { id := 7, is_driver := true } rfl

lemma statusRank_acceptRide (r : Ride) (d : Nat) :
    statusRank r.status ≤ statusRank (acceptRide r d).2.status := by
  by_cases h : rideOpen r
  · rw [acceptRide_of_open d h, h.1]
    simp [statusRank]
  · rw [acceptRide_of_not_open d h]

lemma statusRank_completeRide (r : Ride) (caller : User) :
    statusRank r.status ≤ statusRank (completeRide r caller).2.status := by
  unfold completeRide
  split_ifs with h1 h2 h3
  · exact Nat.le_refl _
  · exact Nat.le_refl _
  · exact Nat.le_refl _
  · push_neg at h3
    rw [h3]
    simp [statusRank]

lemma statusRank_cancelRide (r : Ride) (caller : User) :
    statusRank r.status ≤ statusRank (cancelRide r caller).2.status := by
  unfold cancelRide
  split_ifs with h1 h2
  · exact Nat.le_refl _
  · exact Nat.le_refl _
  · push_neg at h2
    rw [h2]
    simp [statusRank]

lemma statusRank_markPaid (r : Ride) (caller : User) (method : String) :
    statusRank r.status ≤ statusRank (markPaid r caller method).2.status := by
  unfold markPaid
  split_ifs <;> exact Nat.le_refl _

/-- C3 counterexample: on a COMPLETED ride an accept attempt answers
RideUnavailable, not the InvalidState error the claim names for every
transition out of a terminal status. -/
theorem claim_C3_counterexample :
    (acceptRide { rider := 1, driver := some 2, status := RideStatus.completed,
                  payment_status := PaymentStatus.unpaid, payment_method := none,
                  requested_at := 0 } 9).1 = RideResult.rideUnavailable ∧
    (acceptRide { rider := 1, driver := some 2, status := RideStatus.completed,
                  payment_status := PaymentStatus.unpaid, payment_method := none,
                  requested_at := 0 } 9).1 ≠ RideResult.invalidState := by
  decide

/-- C3 (amended): status rank never decreases under any operation, and on
a COMPLETED or CANCELLED ride every transition attempt fails and leaves
the ride unchanged — accept with RideUnavailable, while complete and
cancel answer InvalidState exactly when the caller passes their
authorization checks, an authorization error otherwise. -/
theorem claim_C3_terminal_absorbing (r : Ride) (d : Nat) (caller : User) (method : String) :
    statusRank r.status ≤ statusRank (acceptRide r d).2.status ∧
    statusRank r.status ≤ statusRank (completeRide r caller).2.status ∧
    statusRank r.status ≤ statusRank (cancelRide r caller).2.status ∧
    statusRank r.status ≤ statusRank (markPaid r caller method).2.status ∧
    (r.status = RideStatus.completed ∨ r.status = RideStatus.cancelled →
      acceptRide r d = (RideResult.rideUnavailable, r) ∧
      (completeRide r caller).2 = r ∧
      (completeRide r caller).1 ≠ RideResult.ok ∧
      (caller.is_driver = true → r.driver = some caller.id →
        (completeRide r caller).1 = RideResult.invalidState) ∧
      (cancelRide r caller).2 = r ∧
      (cancelRide r caller).1 ≠ RideResult.ok ∧
      (r.rider = caller.id → (cancelRide r caller).1 = RideResult.invalidState)) := by
  refine ⟨statusRank_acceptRide r d, statusRank_completeRide r caller,
    statusRank_cancelRide r caller, statusRank_markPaid r caller method, ?_⟩
  intro hterm
  have hreq : r.status ≠ RideStatus.requested := by
    cases hterm with
    | inl h => rw [h]; simp
    | inr h => rw [h]; simp
  have hong : r.status ≠ RideStatus.ongoing := by
    cases hterm with
    | inl h => rw [h]; simp
    | inr h => rw [h]; simp
  refine ⟨?_, ?_, ?_, ?_, ?_, ?_, ?_⟩
  · exact acceptRide_of_not_open d (fun hc => hreq hc.1)
  · unfold completeRide
    split_ifs <;> rfl
  · unfold completeRide
    split_ifs <;> simp
  · intro hb hd
    unfold completeRide
    rw [if_neg (by rw [hb]; simp), if_neg (by rw [hd]; simp), if_pos hong]
  · unfold cancelRide
    split_ifs <;> rfl
  · unfold cancelRide
    split_ifs <;> simp
  · intro hr
    unfold cancelRide
    rw [if_neg (by rw [hr]; simp), if_pos hreq]

/-- Witness for C3 on a concrete CANCELLED ride with its rider calling. -/
theorem claim_C3_witness :
    acceptRide { rider := 1, driver := none, status := RideStatus.cancelled,
                 payment_status := PaymentStatus.unpaid, payment_method := none,
                 requested_at := 0 } 9 =
      (RideResult.rideUnavailable,
        { rider := 1, driver := none, status := RideStatus.cancelled,
          payment_status := PaymentStatus.unpaid, payment_method := none,
          requested_at := 0 }) ∧
    (cancelRide { rider := 1, driver := none, status := RideStatus.cancelled,
                  payment_status := PaymentStatus.unpaid, payment_method := none,
                  requested_at := 0 } { id := 1, is_driver := false }).1 =
      RideResult.invalidState := by
  have h := claim_C3_terminal_absorbing
    { rider := 1, driver := none, status := RideStatus.cancelled,
      payment_status := PaymentStatus.unpaid, payment_method := none, requested_at := 0 }
    9 { id := 1, is_driver := false } "CASH"
  exact ⟨(h.2.2.2.2 (Or.inr rfl)).1, (h.2.2.2.2 (Or.inr rfl)).2.2.2.2.2.2 rfl⟩

/-- C4 counterexample: with two open rides requested at times 10 and 20
the listing puts the newer ride first, so it is not ordered
oldest-request-first as the claim states. -/
theorem claim_C4_counterexample :
    availableRides [newRide 1 10, newRide 2 20] = [newRide 2 20, newRide 1 10] ∧
    ¬ List.Sorted oldestFirst (availableRides [newRide 1 10, newRide 2 20]) := by
  constructor
  · rfl
  · decide

/-- C4 (amended): the listing returns exactly the rides with
status REQUESTED and driver null, ordered newest-request-first
(descending by request time). -/
theorem claim_C4_available_rides (rides : List Ride) :
    (availableRides rides).Perm
      (rides.filter (fun r => decide (r.status = RideStatus.requested ∧ r.driver = none))) ∧
    (∀ r, r ∈ availableRides rides ↔
      r ∈ rides ∧ r.status = RideStatus.requested ∧ r.driver = none) ∧
    List.Sorted newestFirst (availableRides rides) := by
  refine ⟨List.perm_insertionSort _ _, ?_, List.sorted_insertionSort _ _⟩
  intro r
  unfold availableRides
  rw [List.mem_insertionSort, List.mem_filter]
  simp

/-- Witness for C4 at a two-ride store. -/
theorem claim_C4_witness :
    List.Sorted newestFirst (availableRides [newRide 1 10, newRide 2 20]) :=
  (claim_C4_available_rides [newRide 1 10, newRide 2 20]).2.2

lemma markPaid_already {r : Ride} (caller : User) (method : String)
    (hs : r.status = RideStatus.completed) (hp : r.payment_status = PaymentStatus.paid)
    (hauth : r.rider = caller.id ∨ r.driver = some caller.id) :
    markPaid r caller method = (RideResult.alreadyPaid, r) := by
  have hna : ¬ (¬ r.rider = caller.id ∧ ¬ r.driver = some caller.id) := by
    intro hc
    cases hauth with
    | inl h => exact hc.1 h
    | inr h => exact hc.2 h
  unfold markPaid
  rw [if_neg hna, if_neg (by rw [hs]; simp), if_pos hp]

/-- C5: for an authorized caller, markPaid fails InvalidState off
COMPLETED, fails AlreadyPaid when already PAID, otherwise records PAID
with the given method; a repeated call on the updated ride always fails
AlreadyPaid and changes nothing. -/
theorem claim_C5_markPaid_gating (r : Ride) (caller : User) (method : String)
    (hauth : r.rider = caller.id ∨ r.driver = some caller.id) :
    (r.status ≠ RideStatus.completed →
      markPaid r caller method = (RideResult.invalidState, r)) ∧
    (r.status = RideStatus.completed → r.payment_status = PaymentStatus.paid →
      markPaid r caller method = (RideResult.alreadyPaid, r)) ∧
    (r.status = RideStatus.completed → r.payment_status = PaymentStatus.unpaid →
      method ∈ validPaymentMethods →
      markPaid r caller method =
        (RideResult.ok, { r with payment_status := PaymentStatus.paid,
                                 payment_method := some method })) ∧
    (∀ caller2 method2, r.status = RideStatus.completed →
      r.payment_status = PaymentStatus.unpaid → method ∈ validPaymentMethods →
      (r.rider = caller2.id ∨ r.driver = some caller2.id) →
      markPaid (markPaid r caller method).2 caller2 method2 =
        (RideResult.alreadyPaid, (markPaid r caller method).2)) := by
  have hna : ¬ (¬ r.rider = caller.id ∧ ¬ r.driver = some caller.id) := by
    intro hc
    cases hauth with
    | inl h => exact hc.1 h
    | inr h => exact hc.2 h
  have hok : r.status = RideStatus.completed → r.payment_status = PaymentStatus.unpaid →
      method ∈ validPaymentMethods →
      markPaid r caller method =
        (RideResult.ok, { r with payment_status := PaymentStatus.paid,
                                 payment_method := some method }) := by
    intro hs hp hm
    unfold markPaid
    rw [if_neg hna, if_neg (by rw [hs]; simp), if_neg (by rw [hp]; simp), if_pos hm]
  refine ⟨?_, ?_, hok, ?_⟩
  · intro hs
    unfold markPaid
    rw [if_neg hna, if_pos hs]
  · intro hs hp
    exact markPaid_already caller method hs hp hauth
  · intro caller2 method2 hs hp hm hauth2
    rw [hok hs hp hm]
    exact markPaid_already caller2 method2 hs rfl hauth2

/-- Witness for C5: the rider pays a COMPLETED UNPAID ride by CARD and a
repeated CASH attempt is rejected as already paid. -/
theorem claim_C5_witness :
    markPaid doneRide { id := 1, is_driver := false } "CARD" = (RideResult.ok, paidRide) ∧
    (markPaid (markPaid doneRide { id := 1, is_driver := false } "CARD").2
        { id := 1, is_driver := false } "CASH").1 = RideResult.alreadyPaid := by
  have h := claim_C5_markPaid_gating doneRide { id := 1, is_driver := false } "CARD"
    (Or.inl rfl)
  refine ⟨h.2.2.1 rfl rfl (by decide), ?_⟩
  rw [h.2.2.2 { id := 1, is_driver := false } "CASH" rfl rfl (by decide) (Or.inl rfl)]

/-- C10: with a payment method outside the serializer's choices, markPaid
still reports the earlier authorization, state or already-paid error
first, and on an otherwise eligible ride it reports the method validation
error and leaves the ride (payment fields included) unchanged. -/
theorem claim_C10_method_checked_last (r : Ride) (caller : User) (method : String)
    (hm : method ∉ validPaymentMethods) :
    (¬ r.rider = caller.id ∧ ¬ r.driver = some caller.id →
      markPaid r caller method = (RideResult.notAuthorized, r)) ∧
    ((r.rider = caller.id ∨ r.driver = some caller.id) →
      r.status ≠ RideStatus.completed →
      markPaid r caller method = (RideResult.invalidState, r)) ∧
    ((r.rider = caller.id ∨ r.driver = some caller.id) →
      r.status = RideStatus.completed → r.payment_status = PaymentStatus.paid →
      markPaid r caller method = (RideResult.alreadyPaid, r)) ∧
    ((r.rider = caller.id ∨ r.driver = some caller.id) →
      r.status = RideStatus.completed → r.payment_status = PaymentStatus.unpaid →
      markPaid r caller method = (RideResult.invalidMethod, r)) := by
  refine ⟨?_, ?_, ?_, ?_⟩
  · intro h
    unfold markPaid
    rw [if_pos h]
  · intro hauth hs
    have hna : ¬ (¬ r.rider = caller.id ∧ ¬ r.driver = some caller.id) := by
      intro hc
      cases hauth with
      | inl h => exact hc.1 h
      | inr h => exact hc.2 h
    unfold markPaid
    rw [if_neg hna, if_pos hs]
  · intro hauth hs hp
    have hna : ¬ (¬ r.rider = caller.id ∧ ¬ r.driver = some caller.id) := by
      intro hc
      cases hauth with
      | inl h => exact hc.1 h
      | inr h => exact hc.2 h
    unfold markPaid
    rw [if_neg hna, if_neg (by rw [hs]; simp), if_pos hp]
  · intro hauth hs hp
    have hna : ¬ (¬ r.rider = caller.id ∧ ¬ r.driver = some caller.id) := by
      intro hc
      cases hauth with
      | inl h => exact hc.1 h
      | inr h => exact hc.2 h
    unfold markPaid
    rw [if_neg hna, if_neg (by rw [hs]; simp), if_neg (by rw [hp]; simp), if_neg hm]

/-- Witness for C10: method BITCOIN on an eligible ride is a validation
error that changes nothing, and on an unauthorized caller the earlier
authorization error wins. -/
theorem claim_C10_witness :
    markPaid doneRide { id := 1, is_driver := false } "BITCOIN" =
      (RideResult.invalidMethod, doneRide) ∧
    markPaid doneRide { id := 9, is_driver := false } "BITCOIN" =
      (RideResult.notAuthorized, doneRide) :=
  ⟨(claim_C10_method_checked_last doneRide { id := 1, is_driver := false } "BITCOIN"
      (by decide)).2.2.2 (Or.inl rfl) rfl rfl,
   (claim_C10_method_checked_last doneRide { id := 9, is_driver := false } "BITCOIN"
      (by decide)).1 (by decide)⟩

/-- C7: a rating outside 1..5 is rejected as invalid input for every
existing ride, caller, status and feedback table, before the status,
authorization and duplicate checks, and no row is inserted. -/
theorem claim_C7_rating_checked_first (r : Ride) (rideId caller : Nat) (rating : Int)
    (comment : Option String) (fbs : List Feedback)
    (h : rating < 1 ∨ 5 < rating) :
    submitFeedback (some r) rideId caller rating comment fbs =
      (RideResult.invalidRating, fbs) := by
  simp only [submitFeedback]
  rw [if_pos h]

/-- Witness for C7: ratings 0 and 6 on a ride that is not even COMPLETED
and already has a conflicting feedback row. -/
theorem claim_C7_witness :
    submitFeedback (some (newRide 1 0)) 3 1 0 none
        [{ ride_id := 3, submitted_by := 1, rating := 4, comment := none,
           is_driver_feedback := false }] =
      (RideResult.invalidRating,
        [{ ride_id := 3, submitted_by := 1, rating := 4, comment := none,
           is_driver_feedback := false }]) ∧
    submitFeedback (some (newRide 1 0)) 3 1 6 none [] = (RideResult.invalidRating, []) :=
  ⟨claim_C7_rating_checked_first (newRide 1 0) 3 1 0 none
      [{ ride_id := 3, submitted_by := 1, rating := 4, comment := none,
         is_driver_feedback := false }] (by decide),
   claim_C7_rating_checked_first (newRide 1 0) 3 1 6 none [] (by decide)⟩

lemma submitFeedback_some_eq (r : Ride) (rideId caller : Nat) (rating : Int)
    (comment : Option String) (fbs : List Feedback)
    (h1 : ¬ (rating < 1 ∨ 5 < rating)) (h2 : r.status = RideStatus.completed)
    (h3 : ¬ (¬ r.rider = caller ∧ ¬ r.driver = some caller))
    (h4 : fbs.any (fun fb => fb.ride_id == rideId && fb.submitted_by == caller) = false) :
    submitFeedback (some r) rideId caller rating comment fbs =
      (RideResult.ok,
        { ride_id := rideId, submitted_by := caller, rating := rating, comment := comment,
          is_driver_feedback := decide (r.driver = some caller) } :: fbs) := by
  simp only [submitFeedback]
  rw [if_neg h1, if_neg (by rw [h2]; simp), if_neg h3, if_neg (by rw [h4]; simp)]

lemma submitFeedback_preserves_unique (oride : Option Ride) (rideId caller : Nat)
    (rating : Int) (comment : Option String) (fbs : List Feedback)
    (h : feedbackKeyUnique fbs) :
    feedbackKeyUnique (submitFeedback oride rideId caller rating comment fbs).2 := by
  cases oride with
  | none => exact h
  | some r =>
    simp only [submitFeedback]
    split_ifs with h1 h2 h3 h4
    · exact h
    · exact h
    · exact h
    · exact h
    · refine List.Pairwise.cons ?_ h
      intro fb hfb hc
      apply h4
      rw [List.any_eq_true]
      refine ⟨fb, hfb, ?_⟩
      have e1 : fb.ride_id = rideId := hc.1.symm
      have e2 : fb.submitted_by = caller := hc.2.symm
      simp [e1, e2]

lemma submitFeedback_ok_inv {r : Ride} {rideId caller : Nat} {rating : Int}
    {comment : Option String} {fbs : List Feedback}
    (hok : (submitFeedback (some r) rideId caller rating comment fbs).1 = RideResult.ok) :
    ¬ (rating < 1 ∨ 5 < rating) ∧ r.status = RideStatus.completed ∧
    ¬ (¬ r.rider = caller ∧ ¬ r.driver = some caller) ∧
    fbs.any (fun fb => fb.ride_id == rideId && fb.submitted_by == caller) = false := by
  simp only [submitFeedback] at hok
  split_ifs at hok with h1 h2 h3 h4
  exact ⟨h1, not_not.mp h2, h3, by simp only [Bool.not_eq_true] at h4; exact h4⟩

lemma submitFeedback_repeat {r : Ride} {rideId caller : Nat} {rating : Int}
    {comment : Option String} {fbs : List Feedback}
    (hok : (submitFeedback (some r) rideId caller rating comment fbs).1 = RideResult.ok)
    (rating2 : Int) (comment2 : Option String) (hr1 : 1 ≤ rating2) (hr2 : rating2 ≤ 5) :
    submitFeedback (some r) rideId caller rating2 comment2
        (submitFeedback (some r) rideId caller rating comment fbs).2 =
      (RideResult.duplicateFeedback,
        (submitFeedback (some r) rideId caller rating comment fbs).2) := by
  obtain ⟨h1, h2, h3, h4⟩ := submitFeedback_ok_inv hok
  rw [submitFeedback_some_eq r rideId caller rating comment fbs h1 h2 h3 h4]
  simp only [submitFeedback]
  rw [if_neg (by omega), if_neg (by rw [h2]; simp), if_neg h3, if_pos (by simp)]

/-- C6: submitting feedback preserves the per-(ride, submitter) key
uniqueness of the feedback table (the only operation that writes it), and
after a successful submission a second call by the same actor on the same
ride fails Duplicate and changes nothing, whatever its valid rating and
comment. -/
theorem claim_C6_feedback_uniqueness (oride : Option Ride) (rideId caller : Nat)
    (rating : Int) (comment : Option String) (fbs : List Feedback) :
    (feedbackKeyUnique fbs →
      feedbackKeyUnique (submitFeedback oride rideId caller rating comment fbs).2) ∧
    (∀ rating2 comment2,
      (submitFeedback oride rideId caller rating comment fbs).1 = RideResult.ok →
      1 ≤ rating2 → rating2 ≤ 5 →
      submitFeedback oride rideId caller rating2 comment2
          (submitFeedback oride rideId caller rating comment fbs).2 =
        (RideResult.duplicateFeedback,
          (submitFeedback oride rideId caller rating comment fbs).2)) := by
  refine ⟨submitFeedback_preserves_unique oride rideId caller rating comment fbs, ?_⟩
  intro rating2 comment2 hok hr1 hr2
  cases oride with
  | none => simp [submitFeedback] at hok
  | some r => exact submitFeedback_repeat hok rating2 comment2 hr1 hr2

/-- Witness for C6: the rider of a completed ride submits a 5 rating, and
a repeat with rating 1 and a different comment is rejected as duplicate. -/
theorem claim_C6_witness :
    feedbackKeyUnique (submitFeedback (some doneRide) 3 1 5 none []).2 ∧
    (submitFeedback (some doneRide) 3 1 1 (some "bad")
        (submitFeedback (some doneRide) 3 1 5 none []).2).1 =
      RideResult.duplicateFeedback := by
  have h := claim_C6_feedback_uniqueness (some doneRide) 3 1 5 none []
  refine ⟨h.1 List.Pairwise.nil, ?_⟩
  rw [h.2 1 (some "bad") (by decide) (by decide) (by decide)]

lemma driverInv_applyOp {r : Ride} (h : driverInv r) (op : RideOp) :
    driverInv (applyOp r op) := by
  cases op with
  | acceptOp d =>
    show driverInv (acceptRide r d).2
    by_cases ho : rideOpen r
    · rw [acceptRide_of_open d ho]
      simp [driverInv]
    · rw [acceptRide_of_not_open d ho]
      exact h
  | completeOp u =>
    show driverInv (completeRide r u).2
    unfold completeRide
    split_ifs with h1 h2 h3
    · exact h
    · exact h
    · exact h
    · have hd : r.driver = some u.id := not_not.mp h2
      simp [driverInv, hd]
  | cancelOp u =>
    show driverInv (cancelRide r u).2
    unfold cancelRide
    split_ifs with h1 h2
    · exact h
    · exact h
    · have hs : r.status = RideStatus.requested := not_not.mp h2
      have hd : r.driver = none := h.mpr (Or.inl hs)
      simp [driverInv, hd]
  | payOp u m =>
    show driverInv (markPaid r u m).2
    unfold markPaid
    split_ifs <;> exact h

lemma driverInv_runOps {r : Ride} (h : driverInv r) (ops : List RideOp) :
    driverInv (runOps r ops) := by
  induction ops generalizing r with
  | nil => exact h
  | cons op ops ih => exact ih (driverInv_applyOp h op)

lemma applyOp_driver_mono {r : Ride} {dId : Nat} (h : r.driver = some dId) (op : RideOp) :
    (applyOp r op).driver = some dId := by
  cases op with
  | acceptOp d =>
    show (acceptRide r d).2.driver = some dId
    have hno : ¬ rideOpen r := by
      intro hc
      have hd := hc.2
      rw [h] at hd
      exact Option.noConfusion hd
    rw [acceptRide_of_not_open d hno]
    exact h
  | completeOp u =>
    show (completeRide r u).2.driver = some dId
    unfold completeRide
    split_ifs <;> simp [h]
  | cancelOp u =>
    show (cancelRide r u).2.driver = some dId
    unfold cancelRide
    split_ifs <;> simp [h]
  | payOp u m =>
    show (markPaid r u m).2.driver = some dId
    unfold markPaid
    split_ifs <;> simp [h]

lemma runOps_driver_mono {r : Ride} {dId : Nat} (h : r.driver = some dId)
    (ops : List RideOp) : (runOps r ops).driver = some dId := by
  induction ops generalizing r with
  | nil => exact h
  | cons op ops ih => exact ih (applyOp_driver_mono h op)

/-- C8: on every ride reachable from creation through the state-changing
operations, the driver is null exactly when the status is REQUESTED or
CANCELLED (all cancellations happen before assignment), and once the
driver is set no operation ever changes or clears it. -/
theorem claim_C8_driver_iff_unassigned (riderId t : Nat) (ops : List RideOp) :
    ((runOps (newRide riderId t) ops).driver = none ↔
      (runOps (newRide riderId t) ops).status = RideStatus.requested ∨
      (runOps (newRide riderId t) ops).status = RideStatus.cancelled) ∧
    (∀ r dId, r.driver = some dId → ∀ more, (runOps r more).driver = some dId) := by
  constructor
  · exact driverInv_runOps (by simp [driverInv, newRide]) ops
  · intro r dId h more
    exact runOps_driver_mono h more

/-- Witness for C8: the assigned driver of a completed ride survives a
stray cancel attempt. -/
theorem claim_C8_witness :
    (runOps doneRide [RideOp.cancelOp { id := 1, is_driver := false }]).driver = some 2 :=
  (claim_C8_driver_iff_unassigned 1 0 []).2 doneRide 2 rfl
    [RideOp.cancelOp { id := 1, is_driver := false }]

end RideShare
